import Mathlib

/-!
Shallow embedding of the Infoblox discovery scheduler scripts
(`current-discovery.py`, `scheduled-discovery.py`, `scheduler.py`).

Remote I/O is modelled by passing the remote system's responses in
explicitly: a status poll is a function `Nat → Option String` giving the
state string returned by the k-th poll of the polling loop (`none` when
the HTTP request fails or the task is not found, matching the scripts
returning `None`), and each HTTP action carries a `Bool` (or an
`Except String Nat` response) saying whether the request completed.
Network round-trip time is idealised as zero, so the k-th poll of the
stop-wait loop happens at wall-clock offset `k * interval` seconds.
Mutating remote calls and the console confirmation are recorded as
explicit event traces so that ordering properties can be stated.
-/

/-- Python's `str.upper()`, by structural recursion over the character
list (so that concrete runs evaluate inside the kernel). -/
def pyUpper (s : String) : String := String.mk (s.data.map Char.toUpper)

/-- Python's `str.lower()`. -/
def pyLower (s : String) : String := String.mk (s.data.map Char.toLower)

/-- Python's `str.endswith(suffix)`. -/
def pyEndsWith (s suffix : String) : Bool := suffix.data.isSuffixOf s.data

/-- Python's `str.strip()`: drop leading and trailing whitespace. -/
def pyStrip (s : String) : String :=
  String.mk (((s.data.dropWhile Char.isWhitespace).reverse.dropWhile Char.isWhitespace).reverse)

/-- The three states treated as "still active" by both the polling loop and
the start routine: the tuple `("RUNNING", "PAUSED", "END_PENDING")` in
current-discovery.py (lines 244, 280, 342). -/
def busyStates : List String := ["RUNNING", "PAUSED", "END_PENDING"]

/-- The test `state and state.upper() not in ("RUNNING", "PAUSED",
"END_PENDING")` of the polling loop (current-discovery.py line 244): the
poll observed a definite (truthy, i.e. non-`None` and non-empty) state
outside `busyStates`. -/
def observedStopped (st : Option String) : Bool :=
  match st with
  | none => false
  | some s => !(s == "") && !(busyStates.contains (pyUpper s))

/-- The test `state and state.upper() in ("RUNNING", "PAUSED",
"END_PENDING")` (current-discovery.py lines 280 and 342). -/
def isBusy (st : Option String) : Bool :=
  match st with
  | none => false
  | some s => !(s == "") && busyStates.contains (pyUpper s)

/-- The test `new_state and new_state.upper() == "RUNNING"`
(current-discovery.py line 305). -/
def isRunningState (st : Option String) : Bool :=
  match st with
  | none => false
  | some s => !(s == "") && (pyUpper s == "RUNNING")

/-- `filter_by_view(network_refs, desired_view)` — identical definitions in
current-discovery.py lines 190-195 and scheduled-discovery.py lines
165-170: keep exactly the references that end with `"/" + desired_view`. -/
def filter_by_view (network_refs : List String) (desired_view : String) : List String :=
  network_refs.filter (fun r => pyEndsWith r ("/" ++ desired_view))

/-- One iteration per poll of the `while time.time() - start_time < timeout`
loop of `wait_for_discovery_to_stop` (current-discovery.py lines 241-248).
The k-th poll happens at elapsed time `k * interval` (the request itself is
idealised as instantaneous and `time.sleep(interval)` advances the clock).
The `fuel` argument only bounds the recursion; when `0 < interval` the loop
performs at most `timeout` polls, so a fuel of `timeout + 1` is never
exhausted before the deadline check fails. -/
def waitLoop (poll : Nat → Option String) (timeout interval : Nat) : Nat → Nat → Bool
  | _, 0 => false
  | k, fuel + 1 =>
    if k * interval < timeout then
      if observedStopped (poll k) then true
      else waitLoop poll timeout interval (k + 1) fuel
    else false

/-- `wait_for_discovery_to_stop(task_ref, timeout=60, interval=5)`
(current-discovery.py lines 236-248), with the sequence of status reads
passed in as `poll`. -/
def wait_for_discovery_to_stop (poll : Nat → Option String) (timeout interval : Nat) : Bool :=
  waitLoop poll timeout interval 0 (timeout + 1)

/-- The remote interactions performed by one call of
`start_current_discovery_task` (current-discovery.py lines 274-310): the
initial status read, whether the END post succeeds, the status reads seen
by the stop-wait loop, whether the START post succeeds, and the status
read taken after the fixed 5-second grace period. -/
structure StartEnv where
  state0 : Option String
  endOk : Bool
  poll : Nat → Option String
  startOk : Bool
  stateAfter : Option String

/-- Control actions posted to the task's
`?_function=network_discovery_control` endpoint. -/
inductive Act where
  | endA
  | startA
  deriving DecidableEq

/-- The START phase of `start_current_discovery_task` (current-discovery.py
lines 291-310): post the START action (appended to the trace whether or not
the request succeeds); on a caught transport failure return failure;
otherwise read the state once after the grace period and succeed exactly
when it is RUNNING. -/
def startPhase (env : StartEnv) (tr : List Act) : Bool × List Act :=
  if env.startOk then
    (isRunningState env.stateAfter, tr ++ [Act.startA])
  else
    (false, tr ++ [Act.startA])

/-- `start_current_discovery_task(task_ref)` (current-discovery.py lines
274-310): read the state; if it is RUNNING/PAUSED/END_PENDING, post END and
poll with `wait_for_discovery_to_stop` (defaults `timeout=60, interval=5`),
failing fast if either step fails; otherwise, or once stopped, run the
START phase.  Returns the success flag and the trace of posted actions. -/
def start_current_discovery_task (env : StartEnv) : Bool × List Act :=
  if isBusy env.state0 then
    if env.endOk then
      if wait_for_discovery_to_stop env.poll 60 5 then
        startPhase env [Act.endA]
      else
        (false, [Act.endA])
    else
      (false, [Act.endA])
  else
    startPhase env []

/-- The JSON body built by the three task-update functions: scan mode,
network view, network list and ping parameters. -/
structure TaskFields where
  mode : String
  network_view : String
  networks : List String
  ping_retries : Nat
  ping_timeout : Nat
  deriving DecidableEq

/-- The payload of `update_current_discovery_task` (current-discovery.py
lines 255-263): `network_view` is `desired_view`, the command-line view of
the run; the call sites use the defaults `mode="ICMP", ping_retries=5,
ping_timeout=1500`. -/
def CurrentDiscovery.updatePayload (desired_view : String) (network_refs : List String)
    (mode : String) (ping_retries ping_timeout : Nat) : TaskFields :=
  ⟨mode, desired_view, network_refs, ping_retries, ping_timeout⟩

/-- The payload of `update_scheduled_discovery_task` (scheduled-discovery.py
lines 198-206): `network_view` is `SCHEDULED_DISCOVERY_NETWORK_VIEW`, the
configured target view. -/
def ScheduledDiscovery.updatePayload (cfgView : String) (network_refs : List String)
    (mode : String) (ping_retries ping_timeout : Nat) : TaskFields :=
  ⟨mode, cfgView, network_refs, ping_retries, ping_timeout⟩

/-- The payload of `update_scheduled_discovery_task` in scheduler.py (lines
100-110): `network_view` is the string literal `"GLOBAL"`, independent of
any configuration value. -/
def Scheduler.updatePayload (network_refs : List String)
    (mode : String) (ping_retries ping_timeout : Nat) : TaskFields :=
  ⟨mode, "GLOBAL", network_refs, ping_retries, ping_timeout⟩

/-- The remote discovery task as observed by the orchestrator: its
updatable fields and its reported state. -/
structure RemoteTask where
  fields : TaskFields
  state : Option String

/-- Modelled from the spec: the remote platform's handling of the task
update (PUT) is not part of this repository; per the spec it is a "full
overwrite (not merge) of the task's scan parameters and network list", so
applying a payload replaces the task's fields wholesale. -/
def applyFullUpdate (t : RemoteTask) (p : TaskFields) : RemoteTask :=
  ⟨p, t.state⟩

/-- `update_current_discovery_task(task_ref, network_refs, ...)`
(current-discovery.py lines 250-272): one PUT of the payload; on success
return `True` (and, via the spec-modelled remote semantics, the task now
carries exactly the payload fields); on a caught transport failure return
`False` and leave the remote task unchanged. -/
def update_current_discovery_task (putOk : Bool) (t : RemoteTask) (desired_view : String)
    (network_refs : List String) (mode : String) (ping_retries ping_timeout : Nat) :
    Bool × RemoteTask :=
  if putOk then
    (true, applyFullUpdate t
      (CurrentDiscovery.updatePayload desired_view network_refs mode ping_retries ping_timeout))
  else
    (false, t)

/-- `prompt_overwrite(force)` (current-discovery.py lines 312-321), with the
console answer passed in: `force` short-circuits without prompting,
otherwise the answer is stripped, lowercased and compared to `"y"`. -/
def prompt_overwrite (force : Bool) (answer : String) : Bool :=
  force || (pyLower (pyStrip answer) == "y")

/-- Events recorded for one run of current-discovery.py's `main`: the
console confirmation request and the three mutating remote calls (the END
post, the task-update PUT, the START post).  Pure status reads are not
recorded. -/
inductive CEvent where
  | promptEv
  | endEv
  | putEv
  | startEv
  deriving DecidableEq

/-- Map a control action posted inside `start_current_discovery_task` to
the corresponding main-run event. -/
def Act.toCEvent : Act → CEvent
  | Act.endA => CEvent.endEv
  | Act.startA => CEvent.startEv

/-- Terminal outcome printed by current-discovery.py's `main`. -/
inductive CurOutcome where
  | noRef
  | aborted
  | skipped
  | updateFailed
  | startFailed
  | started
  deriving DecidableEq

/-- Inputs of one run of current-discovery.py's `main` (lines 323-385):
the task-reference lookup result, the initial status read, the command-line
flags, the console answer, the discovery-enabled network references
returned by the inventory query, and the remote interactions of the update
and start steps. -/
structure CurMainEnv where
  currentRef : Option String
  state0 : Option String
  force : Bool
  answer : String
  enabled : List String
  view : String
  putOk : Bool
  startEnv : StartEnv

/-- current-discovery.py `main` (lines 323-385): abort when no task
reference is found; when the state reads RUNNING/PAUSED/END_PENDING ask
`prompt_overwrite` (a console prompt is only shown when `--force` is
absent) and abort if declined; filter the discovery-enabled networks by the
command-line view and skip when none remain; otherwise PUT the update and,
on success, run `start_current_discovery_task`. -/
def CurrentDiscovery.mainRun (env : CurMainEnv) : CurOutcome × List CEvent :=
  match env.currentRef with
  | none => (CurOutcome.noRef, [])
  | some _ =>
    let pevs : List CEvent := if isBusy env.state0 && !env.force then [CEvent.promptEv] else []
    if isBusy env.state0 && !(prompt_overwrite env.force env.answer) then
      (CurOutcome.aborted, pevs)
    else
      let networks := filter_by_view env.enabled env.view
      if networks.isEmpty then
        (CurOutcome.skipped, pevs)
      else if env.putOk then
        let res := start_current_discovery_task env.startEnv
        (if res.1 then CurOutcome.started else CurOutcome.startFailed,
         pevs ++ [CEvent.putEv] ++ res.2.map Act.toCEvent)
      else
        (CurOutcome.updateFailed, pevs ++ [CEvent.putEv])

/-- The configuration fields scheduled-mode behaviour depends on: the
target network view (`SCHEDULED_DISCOVERY_NETWORK_VIEW`) and the optional
fallback CIDR (`SCHEDULED_DISCOVERY_DEFAULT_NETWORK`, the empty string when
not configured — Python truthiness). -/
structure SchedCfg where
  view : String
  fallbackCidr : String

/-- Terminal outcome printed by scheduled-discovery.py's `main`. -/
inductive SchedOutcome where
  | noRef
  | fallbackNotFound
  | skipped
  | updateFailed
  | completed
  deriving DecidableEq

/-- scheduled-discovery.py `main` (lines 238-294): filter the
discovery-enabled networks by the configured view; when none remain, use
the single resolved fallback reference if a fallback CIDR is configured
(aborting when it does not resolve), and skip with no update call when no
fallback is configured; otherwise PUT the update with the selected list.
The first component is the network list passed to
`update_scheduled_discovery_task`, `none` when no update call is made. -/
def ScheduledDiscovery.mainRun (cfg : SchedCfg) (schedRef : Option String)
    (enabled : List String) (fallbackRef : Option String) (putOk : Bool) :
    Option (List String) × SchedOutcome :=
  match schedRef with
  | none => (none, SchedOutcome.noRef)
  | some _ =>
    let networks := filter_by_view enabled cfg.view
    if networks.isEmpty then
      if !(cfg.fallbackCidr == "") then
        match fallbackRef with
        | some fr =>
          (some [fr], if putOk then SchedOutcome.completed else SchedOutcome.updateFailed)
        | none => (none, SchedOutcome.fallbackNotFound)
      else
        (none, SchedOutcome.skipped)
    else
      (some networks, if putOk then SchedOutcome.completed else SchedOutcome.updateFailed)

/-- scheduler.py `main` (lines 177-197): no view filtering and no fallback
handling — the update PUT is issued with the full discovery-enabled list
exactly when that list is nonempty (its result is ignored), and the
configuration's view/fallback fields are never consulted.  The result is
the network list passed to `update_scheduled_discovery_task`, `none` when
no update call is made. -/
def Scheduler.mainRun (cfg : SchedCfg) (schedRef : Option String)
    (enabled : List String) : Option (List String) :=
  match schedRef with
  | none => none
  | some _ => if enabled.isEmpty then none else some enabled

/-- `raise_for_status()`: an HTTP response is either a transport error or a
status code, and a non-2xx code is turned into an error that the
surrounding `try` catches. -/
def raise_for_status (resp : Except String Nat) : Except String Nat :=
  match resp with
  | Except.error e => Except.error e
  | Except.ok code => if 200 ≤ code && code < 300 then Except.ok code else Except.error "HTTPError"

/-- The response completed with a 2xx status. -/
def http2xx (resp : Except String Nat) : Bool :=
  match resp with
  | Except.error _ => false
  | Except.ok code => 200 ≤ code && code < 300

/-- `stop_current_discovery_task` (current-discovery.py lines 218-234): one
POST; `RequestException` (transport failure or non-2xx after
`raise_for_status`) is caught and logged and the function returns `False`,
otherwise `True`.  The second component counts the HTTP requests issued by
one call: always exactly one — there is no retry. -/
def CurrentDiscovery.stopCall (resp : Except String Nat) : Bool × Nat :=
  (match raise_for_status resp with
   | Except.ok _ => true
   | Except.error _ => false, 1)

/-- `update_current_discovery_task` (current-discovery.py lines 250-272):
one PUT; caught failure gives `False`, success gives `True`. -/
def CurrentDiscovery.updateCall (resp : Except String Nat) : Bool × Nat :=
  (match raise_for_status resp with
   | Except.ok _ => true
   | Except.error _ => false, 1)

/-- The START post inside `start_current_discovery_task`
(current-discovery.py lines 292-301): one POST; caught failure gives
`False`. -/
def CurrentDiscovery.startPostCall (resp : Except String Nat) : Bool × Nat :=
  (match raise_for_status resp with
   | Except.ok _ => true
   | Except.error _ => false, 1)

/-- `get_current_discovery_status` (current-discovery.py lines 153-168):
one GET; on a caught failure it returns `(None, None)` instead of the
parsed `(state, status)` pair. -/
def CurrentDiscovery.getStatusCall (resp : Except String Nat)
    (parsed : Option String × Option String) : (Option String × Option String) × Nat :=
  (match raise_for_status resp with
   | Except.ok _ => parsed
   | Except.error _ => (none, none), 1)

/-- `update_scheduled_discovery_task` (scheduled-discovery.py lines
193-216): one PUT; caught failure gives `False`, success gives `True`. -/
def ScheduledDiscovery.updateCall (resp : Except String Nat) : Bool × Nat :=
  (match raise_for_status resp with
   | Except.ok _ => true
   | Except.error _ => false, 1)

/-- `update_scheduled_discovery_task` in scheduler.py (lines 100-127): the
PUT is issued once and a `RequestException` is caught and logged followed
by a bare `return`; the success path falls off the end of the function.
Both paths therefore return Python `None` — the result value carries no
success signal, modelled as the constant `none`. -/
def Scheduler.updateCall (resp : Except String Nat) : Option Bool × Nat :=
  ((fun _ => none) (raise_for_status resp), 1)

/-- `start_scheduled_discovery_task` in scheduler.py (lines 129-151): same
shape — one POST, failure caught and logged, `None` returned on both
paths. -/
def Scheduler.startCall (resp : Except String Nat) : Option Bool × Nat :=
  ((fun _ => none) (raise_for_status resp), 1)

/-- Characterisation of the polling loop: with a positive interval and
enough fuel, `waitLoop` from poll index `k` returns `true` exactly when
some poll at index `j ≥ k` happens before the deadline (`j * interval <
timeout`) and observes a definite state outside `busyStates`. -/
theorem waitLoop_true_iff (poll : Nat → Option String) (timeout interval : Nat) :
    ∀ fuel k, timeout ≤ k * interval + fuel * interval →
      (waitLoop poll timeout interval k fuel = true ↔
        ∃ j, k ≤ j ∧ j * interval < timeout ∧ observedStopped (poll j) = true) := by
  intro fuel
  induction fuel with
  | zero =>
    intro k hk
    constructor
    · intro h
      simp [waitLoop] at h
    · rintro ⟨j, hkj, hjt, _⟩
      have hmul : k * interval ≤ j * interval := Nat.mul_le_mul_right interval hkj
      have h1 : timeout ≤ j * interval := le_trans (by simpa using hk) hmul
      exact absurd hjt (Nat.not_lt.mpr h1)
  | succ fuel ih =>
    intro k hk
    by_cases hkt : k * interval < timeout
    · by_cases hs : observedStopped (poll k) = true
      · constructor
        · intro _
          exact ⟨k, le_refl k, hkt, hs⟩
        · intro _
          simp [waitLoop, hkt, hs]
      · have heq : (k + 1) * interval + fuel * interval
            = k * interval + (fuel + 1) * interval := by ring
        have hrec := ih (k + 1) (by rw [heq]; exact hk)
        constructor
        · intro h
          have h' : waitLoop poll timeout interval (k + 1) fuel = true := by
            simpa [waitLoop, hkt, hs] using h
          rcases hrec.mp h' with ⟨j, hj1, hj2, hj3⟩
          exact ⟨j, le_trans (Nat.le_succ k) hj1, hj2, hj3⟩
        · rintro ⟨j, hkj, hjt, hjs⟩
          have hne : k ≠ j := by
            intro he
            rw [← he] at hjs
            exact hs hjs
          have hkj' : k + 1 ≤ j := Nat.lt_of_le_of_ne hkj hne
          have h' : waitLoop poll timeout interval (k + 1) fuel = true :=
            hrec.mpr ⟨j, hkj', hjt, hjs⟩
          simpa [waitLoop, hkt, hs] using h'
    · constructor
      · intro h
        simp [waitLoop, hkt] at h
      · rintro ⟨j, hkj, hjt, _⟩
        have hmul : k * interval ≤ j * interval := Nat.mul_le_mul_right interval hkj
        exact absurd hjt (Nat.not_lt.mpr (le_trans (Nat.le_of_not_lt hkt) hmul))

/-- `wait_for_discovery_to_stop` returns `true` exactly when some poll
before the deadline observes a definite state outside `busyStates`. -/
theorem wait_iff_aux (poll : Nat → Option String) (timeout interval : Nat)
    (hi : 0 < interval) :
    wait_for_discovery_to_stop poll timeout interval = true ↔
      ∃ k, k * interval < timeout ∧ observedStopped (poll k) = true := by
  have hfuel : timeout ≤ 0 * interval + (timeout + 1) * interval := by
    have h1 : timeout + 1 ≤ (timeout + 1) * interval := Nat.le_mul_of_pos_right _ hi
    simpa using le_trans (Nat.le_succ timeout) h1
  have h := waitLoop_true_iff poll timeout interval (timeout + 1) 0 hfuel
  unfold wait_for_discovery_to_stop
  rw [h]
  constructor
  · rintro ⟨j, _, hj2, hj3⟩
    exact ⟨j, hj2, hj3⟩
  · rintro ⟨j, hj2, hj3⟩
    exact ⟨j, Nat.zero_le j, hj2, hj3⟩

/-- C2: for every task reference, timeout and (positive) interval,
`wait_for_discovery_to_stop` polls the task state every `interval` seconds
(the k-th poll at wall-clock offset `k * interval`) and returns `true`
exactly when some poll taken before `timeout` seconds elapse observes a
definite state outside {RUNNING, PAUSED, END_PENDING}; it returns `false`
when the timeout elapses without such an observation. -/
theorem wait_true_iff_poll_observes_stopped (poll : Nat → Option String)
    (timeout interval : Nat) (hi : 0 < interval) :
    wait_for_discovery_to_stop poll timeout interval = true ↔
      ∃ k, k * interval < timeout ∧ observedStopped (poll k) = true :=
  wait_iff_aux poll timeout interval hi

/-- Witness for C2: a run whose second poll (at offset 5 of a 60-second
deadline) reads state COMPLETED converges. -/
def pollW : Nat → Option String :=
  fun k => if k == 0 then some "RUNNING" else some "COMPLETED"

theorem wait_true_iff_poll_observes_stopped_witness :
    0 < 5 ∧
      (wait_for_discovery_to_stop pollW 60 5 = true ↔
        ∃ k, k * 5 < 60 ∧ observedStopped (pollW k) = true) :=
  ⟨by decide, wait_true_iff_poll_observes_stopped pollW 60 5 (by decide)⟩

/-- C9: a poll whose state read fails (`None`) is never counted as the task
having stopped — `wait_for_discovery_to_stop` returns `true` only when some
poll before the deadline observes a definite state outside
{RUNNING, PAUSED, END_PENDING}, and a run in which every poll returns
`None` ends with `false`. -/
theorem wait_requires_definite_stop (poll : Nat → Option String)
    (timeout interval : Nat) (hi : 0 < interval) :
    (wait_for_discovery_to_stop poll timeout interval = true →
      ∃ k, k * interval < timeout ∧ ∃ s, poll k = some s ∧ s ≠ "" ∧
        busyStates.contains (pyUpper s) = false)
    ∧ ((∀ k, poll k = none) → wait_for_discovery_to_stop poll timeout interval = false) := by
  constructor
  · intro h
    rcases (wait_iff_aux poll timeout interval hi).mp h with ⟨k, hk, hs⟩
    refine ⟨k, hk, ?_⟩
    cases hp : poll k with
    | none =>
      rw [hp] at hs
      simp [observedStopped] at hs
    | some s =>
      rw [hp] at hs
      simp only [observedStopped, Bool.and_eq_true, Bool.not_eq_true'] at hs
      refine ⟨s, rfl, ?_, hs.2⟩
      intro he
      rw [he] at hs
      simp at hs
  · intro hall
    cases h : wait_for_discovery_to_stop poll timeout interval with
    | false => rfl
    | true =>
      rcases (wait_iff_aux poll timeout interval hi).mp h with ⟨k, _, hs⟩
      rw [hall k] at hs
      simp [observedStopped] at hs

/-- Witness for C9: with every poll failing, a 10-second wait at 5-second
intervals ends in `false`. -/
def pollNone : Nat → Option String := fun _ => none

theorem wait_requires_definite_stop_witness :
    0 < 5 ∧
      ((wait_for_discovery_to_stop pollNone 10 5 = true →
        ∃ k, k * 5 < 10 ∧ ∃ s, pollNone k = some s ∧ s ≠ "" ∧
          busyStates.contains (pyUpper s) = false)
      ∧ ((∀ k, pollNone k = none) → wait_for_discovery_to_stop pollNone 10 5 = false)) :=
  ⟨by decide, wait_requires_definite_stop pollNone 10 5 (by decide)⟩

/-- C1: on a task whose initial state read is RUNNING/PAUSED/END_PENDING,
the START action is posted only after the END action succeeds and the
stop-polling loop converges within the timeout — the trace is then exactly
END followed by START; if the END post fails or the polling loop times
out, START is never posted and `start_current_discovery_task` returns
failure. -/
theorem start_serializes_stop_then_start (env : StartEnv)
    (hbusy : isBusy env.state0 = true) :
    ((env.endOk = true ∧ wait_for_discovery_to_stop env.poll 60 5 = true) →
      (start_current_discovery_task env).2 = [Act.endA, Act.startA])
    ∧ (¬(env.endOk = true ∧ wait_for_discovery_to_stop env.poll 60 5 = true) →
      Act.startA ∉ (start_current_discovery_task env).2 ∧
        (start_current_discovery_task env).1 = false) := by
  constructor
  · rintro ⟨he, hw⟩
    cases hso : env.startOk <;>
      simp [start_current_discovery_task, hbusy, he, hw, startPhase, hso]
  · intro hne
    cases hend : env.endOk with
    | false =>
      simp [start_current_discovery_task, hbusy, hend]
    | true =>
      cases hw : wait_for_discovery_to_stop env.poll 60 5 with
      | true => exact absurd ⟨hend, hw⟩ hne
      | false => simp [start_current_discovery_task, hbusy, hend, hw]

/-- Witness for C1: a RUNNING task whose END succeeds and whose first
stop-poll reads COMPLETE gives the serialized END-then-START trace. -/
def startEnvW : StartEnv :=
  ⟨some "RUNNING", true, fun _ => some "COMPLETE", true, some "RUNNING"⟩

theorem start_serializes_stop_then_start_witness :
    isBusy startEnvW.state0 = true ∧
      (((startEnvW.endOk = true ∧
          wait_for_discovery_to_stop startEnvW.poll 60 5 = true) →
        (start_current_discovery_task startEnvW).2 = [Act.endA, Act.startA])
      ∧ (¬(startEnvW.endOk = true ∧
          wait_for_discovery_to_stop startEnvW.poll 60 5 = true) →
        Act.startA ∉ (start_current_discovery_task startEnvW).2 ∧
          (start_current_discovery_task startEnvW).1 = false)) :=
  ⟨by decide, start_serializes_stop_then_start startEnvW (by decide)⟩

/-- C10: when the initial state read of `start_current_discovery_task`
returns Unknown (`None`), the stop-and-await phase is skipped entirely and
the START action is posted immediately — the whole trace is the single
START post, with no END. -/
theorem unknown_state_starts_immediately (env : StartEnv)
    (h : env.state0 = none) :
    (start_current_discovery_task env).2 = [Act.startA] := by
  cases hso : env.startOk <;>
    simp [start_current_discovery_task, h, isBusy, startPhase, hso]

/-- Witness for C10: an environment whose initial status read fails posts
only START. -/
def startEnvNone : StartEnv :=
  ⟨none, true, fun _ => none, true, some "RUNNING"⟩

theorem unknown_state_starts_immediately_witness :
    startEnvNone.state0 = none ∧
      (start_current_discovery_task startEnvNone).2 = [Act.startA] :=
  ⟨rfl, unknown_state_starts_immediately startEnvNone rfl⟩

/-- C4: for every list of network-reference strings and every view string,
`filter_by_view` returns exactly the sublist of references ending with
`"/" ++ view` (membership characterisation plus sublist, which preserves
the input order), and applying it twice with the same view equals applying
it once. -/
theorem filter_by_view_exact_sublist_idempotent (refs : List String) (V : String) :
    (filter_by_view refs V).Sublist refs
    ∧ (∀ x, x ∈ filter_by_view refs V ↔ x ∈ refs ∧ pyEndsWith x ("/" ++ V) = true)
    ∧ filter_by_view (filter_by_view refs V) V = filter_by_view refs V := by
  refine ⟨List.filter_sublist refs, ?_, ?_⟩
  · intro x
    simp [filter_by_view, List.mem_filter]
  · simp [filter_by_view, List.filter_filter]

/-- `start_current_discovery_task` reports success only when the state
read after the grace period is RUNNING. -/
theorem start_true_isRunning (env : StartEnv) :
    (start_current_discovery_task env).1 = true → isRunningState env.stateAfter = true := by
  intro h
  unfold start_current_discovery_task startPhase at h
  cases hb : isBusy env.state0 <;> rw [hb] at h <;>
    cases hs : env.startOk <;> simp [hs] at h <;>
      first
        | exact h
        | (cases he : env.endOk <;> rw [he] at h <;>
            cases hw : wait_for_discovery_to_stop env.poll 60 5 <;>
              simp [hw] at h <;> exact h)

/-- C3: after a successful reconfigure-and-start cycle (the update PUT
returns success and `start_current_discovery_task` returns success), the
remote task's network list equals exactly the list passed to the update —
a full overwrite, independent of the task's previous contents — and the
final observed state is RUNNING; and a run of `main` reports success
(outcome `started`) only when both the update and the start succeeded. -/
theorem cycle_overwrites_networks_and_runs (t : RemoteTask) (view : String)
    (refs : List String) (putOk : Bool) (senv : StartEnv) (env2 : CurMainEnv)
    (hupd : (update_current_discovery_task putOk t view refs "ICMP" 5 1500).1 = true)
    (hstart : (start_current_discovery_task senv).1 = true) :
    (update_current_discovery_task putOk t view refs "ICMP" 5 1500).2.fields.networks = refs
    ∧ (∃ s, senv.stateAfter = some s ∧ pyUpper s = "RUNNING")
    ∧ ((CurrentDiscovery.mainRun env2).1 = CurOutcome.started →
        env2.putOk = true ∧ (start_current_discovery_task env2.startEnv).1 = true) := by
  refine ⟨?_, ?_, ?_⟩
  · cases hp : putOk with
    | false =>
      simp [update_current_discovery_task, hp] at hupd
    | true =>
      simp [update_current_discovery_task, hp, applyFullUpdate, CurrentDiscovery.updatePayload]
  · have hrun := start_true_isRunning senv hstart
    cases hsa : senv.stateAfter with
    | none =>
      rw [hsa] at hrun
      simp [isRunningState] at hrun
    | some s =>
      rw [hsa] at hrun
      simp only [isRunningState, Bool.and_eq_true] at hrun
      exact ⟨s, rfl, by simpa using hrun.2⟩
  · intro hrun
    cases hcr : env2.currentRef with
    | none =>
      simp [CurrentDiscovery.mainRun, hcr] at hrun
    | some r =>
      by_cases hb : (isBusy env2.state0 && !(prompt_overwrite env2.force env2.answer)) = true
      · simp [CurrentDiscovery.mainRun, hcr, hb] at hrun
      · by_cases hn : (filter_by_view env2.enabled env2.view).isEmpty = true
        · simp [CurrentDiscovery.mainRun, hcr, hb, hn] at hrun
        · by_cases hp : env2.putOk = true
          · refine ⟨hp, ?_⟩
            cases hres : (start_current_discovery_task env2.startEnv).1 with
            | true => rfl
            | false => simp [CurrentDiscovery.mainRun, hcr, hb, hn, hp, hres] at hrun
          · have hp' : env2.putOk = false := by
              cases hq : env2.putOk
              · rfl
              · exact absurd hq hp
            simp [CurrentDiscovery.mainRun, hcr, hb, hn, hp'] at hrun

/-- Witness data for C3: a previously configured task and a run whose
update and start both succeed. -/
def taskW : RemoteTask :=
  ⟨⟨"ICMP", "default", ["network/old1/default", "network/old2/default"], 5, 1500⟩,
    some "STOPPED"⟩

/-- Witness data for C3: a main-run environment. -/
def curMainEnvW : CurMainEnv :=
  ⟨some "discoverytask/current", some "STOPPED", false, "y",
    ["network/a/default"], "default", true, startEnvNone⟩

theorem cycle_overwrites_networks_and_runs_witness :
    (update_current_discovery_task true taskW "default" ["network/new/default"]
        "ICMP" 5 1500).1 = true
    ∧ (start_current_discovery_task startEnvNone).1 = true
    ∧ ((update_current_discovery_task true taskW "default" ["network/new/default"]
          "ICMP" 5 1500).2.fields.networks = ["network/new/default"]
      ∧ (∃ s, startEnvNone.stateAfter = some s ∧ pyUpper s = "RUNNING")
      ∧ ((CurrentDiscovery.mainRun curMainEnvW).1 = CurOutcome.started →
          curMainEnvW.putOk = true ∧
            (start_current_discovery_task curMainEnvW.startEnv).1 = true)) :=
  ⟨by decide, by decide,
    cycle_overwrites_networks_and_runs taskW "default" ["network/new/default"] true
      startEnvNone curMainEnvW (by decide) (by decide)⟩

/-- C8: in immediate mode, when the task state reads RUNNING/PAUSED/
END_PENDING and `--force` is absent, a confirmation is requested before any
mutating call (the prompt event heads the trace); if it is declined, the
run aborts with no END post, no task-update PUT and no START post — the
trace is exactly the prompt. -/
theorem declined_prompt_issues_no_calls (env : CurMainEnv) (r : String)
    (href : env.currentRef = some r) (hbusy : isBusy env.state0 = true)
    (hforce : env.force = false) :
    ((CurrentDiscovery.mainRun env).2.head? = some CEvent.promptEv)
    ∧ (prompt_overwrite env.force env.answer = false →
        CurrentDiscovery.mainRun env = (CurOutcome.aborted, [CEvent.promptEv])) := by
  constructor
  · by_cases hd : prompt_overwrite false env.answer = true
    · by_cases hn : (filter_by_view env.enabled env.view).isEmpty = true
      · simp [CurrentDiscovery.mainRun, href, hbusy, hforce, hd, hn]
      · by_cases hput : env.putOk = true
        · simp [CurrentDiscovery.mainRun, href, hbusy, hforce, hd, hn, hput]
        · simp [CurrentDiscovery.mainRun, href, hbusy, hforce, hd, hn, hput]
    · have hd' : prompt_overwrite false env.answer = false := by
        cases hq : prompt_overwrite false env.answer
        · rfl
        · exact absurd hq hd
      simp [CurrentDiscovery.mainRun, href, hbusy, hforce, hd']
  · intro hd
    rw [hforce] at hd
    simp [CurrentDiscovery.mainRun, href, hbusy, hforce, hd]

/-- Witness data for C8: a RUNNING task, no force flag, console answer
"n". -/
def curMainEnvDecl : CurMainEnv :=
  ⟨some "discoverytask/current", some "RUNNING", false, "n",
    ["network/a/default"], "default", true, startEnvNone⟩

theorem declined_prompt_issues_no_calls_witness :
    curMainEnvDecl.currentRef = some "discoverytask/current"
    ∧ isBusy curMainEnvDecl.state0 = true
    ∧ curMainEnvDecl.force = false
    ∧ (((CurrentDiscovery.mainRun curMainEnvDecl).2.head? = some CEvent.promptEv)
      ∧ (prompt_overwrite curMainEnvDecl.force curMainEnvDecl.answer = false →
          CurrentDiscovery.mainRun curMainEnvDecl =
            (CurOutcome.aborted, [CEvent.promptEv]))) :=
  ⟨rfl, by decide, rfl,
    declined_prompt_issues_no_calls curMainEnvDecl "discoverytask/current"
      rfl (by decide) rfl⟩

/-- C5 counterexample: a scheduled-mode run of scheduler.py whose
configured target view is "default" issues an update payload whose
`network_view` is the hard-coded literal "GLOBAL", not the configured
target view — so not every full task update sets the payload's
network-view field to the target view of its run. -/
theorem scheduler_payload_view_not_configured :
    (Scheduler.updatePayload ["network/a/default"] "ICMP" 5 1500).network_view = "GLOBAL"
    ∧ ¬((Scheduler.updatePayload ["network/a/default"] "ICMP" 5 1500).network_view
        = "default") := by
  refine ⟨rfl, ?_⟩
  intro h
  simp [Scheduler.updatePayload] at h

/-- C5 amended: the update payloads of current-discovery.py and
scheduled-discovery.py set `network_view` to the run's target view (the
command-line view and the configured view, respectively), while
scheduler.py's update payload always sets it to the literal "GLOBAL",
whatever the configuration says. -/
theorem update_payload_view_per_script (argView cfgView mode : String)
    (refs : List String) (pr pt : Nat) :
    (CurrentDiscovery.updatePayload argView refs mode pr pt).network_view = argView
    ∧ (ScheduledDiscovery.updatePayload cfgView refs mode pr pt).network_view = cfgView
    ∧ (Scheduler.updatePayload refs mode pr pt).network_view = "GLOBAL" :=
  ⟨rfl, rfl, rfl⟩

/-- C6 counterexample: scheduler.py's `update_scheduled_discovery_task`
returns Python `None` both when the PUT succeeds with 200 and when the
transport fails — the transport failure is caught and logged but is not
converted into a success signal the caller could branch on (and scheduler's
`main` indeed ignores the result). -/
theorem scheduler_update_result_constant :
    (Scheduler.updateCall (Except.ok 200)).1
      = (Scheduler.updateCall (Except.error "connection refused")).1
    ∧ (Scheduler.updateCall (Except.error "connection refused")).1 = none :=
  ⟨rfl, rfl⟩

/-- C6 amended: every remote-call wrapper catches transport failures and
non-2xx responses at the call site and issues exactly one HTTP request per
invocation (never retrying); in current-discovery.py and
scheduled-discovery.py the outcome is converted into a boolean (or
`(None, None)`) success signal that distinguishes success from failure,
but scheduler.py's update and start wrappers return `None` on success and
on failure alike, so their callers cannot branch on the outcome. -/
theorem remote_call_failures_become_signals (resp : Except String Nat)
    (parsed : Option String × Option String) :
    (CurrentDiscovery.stopCall resp).2 = 1
    ∧ (CurrentDiscovery.updateCall resp).2 = 1
    ∧ (CurrentDiscovery.startPostCall resp).2 = 1
    ∧ (CurrentDiscovery.getStatusCall resp parsed).2 = 1
    ∧ (ScheduledDiscovery.updateCall resp).2 = 1
    ∧ (Scheduler.updateCall resp).2 = 1
    ∧ (Scheduler.startCall resp).2 = 1
    ∧ ((CurrentDiscovery.stopCall resp).1 = http2xx resp)
    ∧ ((CurrentDiscovery.updateCall resp).1 = http2xx resp)
    ∧ ((CurrentDiscovery.startPostCall resp).1 = http2xx resp)
    ∧ ((ScheduledDiscovery.updateCall resp).1 = http2xx resp)
    ∧ ((CurrentDiscovery.getStatusCall resp parsed).1
        = if http2xx resp then parsed else (none, none))
    ∧ ((Scheduler.updateCall resp).1 = none)
    ∧ ((Scheduler.startCall resp).1 = none) := by
  cases resp with
  | error e =>
    simp [CurrentDiscovery.stopCall, CurrentDiscovery.updateCall,
      CurrentDiscovery.startPostCall, CurrentDiscovery.getStatusCall,
      ScheduledDiscovery.updateCall, Scheduler.updateCall, Scheduler.startCall,
      raise_for_status, http2xx]
  | ok code =>
    by_cases h2 : (200 ≤ code && code < 300) = true <;>
      simp [CurrentDiscovery.stopCall, CurrentDiscovery.updateCall,
        CurrentDiscovery.startPostCall, CurrentDiscovery.getStatusCall,
        ScheduledDiscovery.updateCall, Scheduler.updateCall, Scheduler.startCall,
        raise_for_status, http2xx, h2]

/-- C7 counterexample: with the shared configuration carrying a fallback
CIDR of "10.0.0.0/8" (configured, and resolvable in the environment to the
reference named below), a scheduled-mode run of scheduler.py with an empty
discovery-enabled list issues no update at all — not the update with
exactly the single fallback reference that the claim requires (scheduler.py
never consults the fallback configuration). -/
theorem scheduler_ignores_fallback :
    Scheduler.mainRun ⟨"default", "10.0.0.0/8"⟩
        (some "discoverytask/b2lk:scheduled") [] = none
    ∧ ¬(Scheduler.mainRun ⟨"default", "10.0.0.0/8"⟩
          (some "discoverytask/b2lk:scheduled") []
        = some ["network/ZmFsbGJhY2s:10.0.0.0--8/default"]) := by
  refine ⟨rfl, ?_⟩
  intro h
  simp [Scheduler.mainRun] at h

/-- C7 amended: in scheduled-discovery.py, whenever the view-filtered list
of discovery-enabled networks is empty, a configured fallback CIDR that
resolves to a reference makes the update proceed with exactly that single
reference (and an unresolvable one aborts), while no configured fallback
means no update call and the outcome "skipped", not failed; scheduler.py,
by contrast, applies no view filter and no fallback: it issues the update
with the unfiltered discovery-enabled list exactly when that list is
nonempty. -/
theorem sched_empty_filtered_fallback_or_skip (cfg : SchedCfg) (r fr : String)
    (enabled : List String) (putOk : Bool)
    (hempty : filter_by_view enabled cfg.view = []) :
    ScheduledDiscovery.mainRun cfg (some r) enabled (some fr) putOk =
      (if cfg.fallbackCidr == "" then (none, SchedOutcome.skipped)
       else (some [fr],
         if putOk then SchedOutcome.completed else SchedOutcome.updateFailed))
    ∧ ScheduledDiscovery.mainRun cfg (some r) enabled none putOk =
      (if cfg.fallbackCidr == "" then (none, SchedOutcome.skipped)
       else (none, SchedOutcome.fallbackNotFound))
    ∧ Scheduler.mainRun cfg (some r) enabled =
      (if enabled.isEmpty then none else some enabled) := by
  refine ⟨?_, ?_, rfl⟩ <;>
    cases hf : cfg.fallbackCidr == "" <;>
      simp [ScheduledDiscovery.mainRun, hempty, hf]

/-- Witness for C7: no networks survive the view filter and no fallback is
configured (cfg's fallback CIDR is the empty string); the run skips. -/
theorem sched_empty_filtered_fallback_or_skip_witness :
    filter_by_view ["network/a/other"] "default" = []
    ∧ (ScheduledDiscovery.mainRun ⟨"default", ""⟩ (some "t") ["network/a/other"]
          (some "fbref") true =
        (if ("" : String) == "" then (none, SchedOutcome.skipped)
         else (some ["fbref"], SchedOutcome.completed))
      ∧ ScheduledDiscovery.mainRun ⟨"default", ""⟩ (some "t") ["network/a/other"]
          none true =
        (if ("" : String) == "" then (none, SchedOutcome.skipped)
         else (none, SchedOutcome.fallbackNotFound))
      ∧ Scheduler.mainRun ⟨"default", ""⟩ (some "t") ["network/a/other"] =
        (if (["network/a/other"] : List String).isEmpty then none
         else some ["network/a/other"])) :=
  ⟨by decide,
    sched_empty_filtered_fallback_or_skip ⟨"default", ""⟩ "t" "fbref"
      ["network/a/other"] true (by decide)⟩
